import Mathlib

/-!
# Registry and 1-click services of the godo client

A shallow embedding of `registry.go` (the `RegistryServiceOp` methods and the
data shapes they use) together with the shared transport the methods delegate
to.  The transport (`Client.NewRequest`, `Client.Do`) is not part of the
embedded sources, so it is a parameter: an arbitrary, possibly stateful pair of
functions.  Every call that a service method makes on the client is recorded
in a call trace, which is what the statements about requests, round trips and
contexts talk about.

Go pointers that may be nil are `Option`s, the `error` interface is
`Option Error`, and a pointer handed to `Do` as decoding target is modelled by
passing the pointee in and getting the updated pointee back.
-/

namespace godo

/-! ## Values exchanged with the transport -/

/-- A `context.Context` value: the background context or a cancellable child
of another context, with its cancellation state. -/
inductive Context where
  | Background : Context
  | WithCancel (parent : Context) (done : Bool) : Context
  deriving DecidableEq, Repr

/-- An `error` value. `Canceled` and `DeadlineExceeded` are the errors of the
context package, `ErrorResponse` is the error the transport reports for a
response outside the 2xx range, `Decode` a JSON decoding fault. -/
inductive Error where
  | Canceled : Error
  | DeadlineExceeded : Error
  | ErrorResponse (status : Nat) (message : String) : Error
  | Decode (message : String) : Error
  | Other (message : String) : Error
  deriving DecidableEq, Repr

/-- A JSON document. -/
inductive JSON where
  | null : JSON
  | bool (b : Bool) : JSON
  | number (n : Int) : JSON
  | string (s : String) : JSON
  | array (elems : List JSON) : JSON
  | object (members : List (String × JSON)) : JSON

/-- The request value built by `NewRequest` (an `http.Request`). -/
structure Request where
  Method : String
  URL : String
  Body : Option JSON

/-- The response metadata returned by `Do`. -/
structure Response where
  StatusCode : Nat
  deriving DecidableEq, Repr

namespace http

def MethodGet : String := "GET"

def MethodPost : String := "POST"

def MethodDelete : String := "DELETE"

end http

/-! ## Data shapes of `registry.go` -/

def registryPath : String := "/v2/registry"

/-- A JSON struct tag: the key, and whether `omitempty` is set. -/
structure FieldTag where
  key : String
  omitempty : Bool
  deriving DecidableEq, Repr

/-- RegistryCreateRequest represents a request to create a registry. -/
structure RegistryCreateRequest where
  Name : String
  deriving DecidableEq, Repr

/-- The tag of `RegistryCreateRequest.Name`: `json:"name,omitempty"`. -/
def RegistryCreateRequest.NameTag : FieldTag := ⟨"name", true⟩

/-- Registry represents a registry. -/
structure Registry where
  Name : String
  deriving DecidableEq, Repr

/-- The tag of `Registry.Name`: `json:"name,omitempty"`. -/
def Registry.NameTag : FieldTag := ⟨"name", true⟩

/-- The response envelope of the registry endpoints; `Registry` is a pointer. -/
structure registryRoot where
  Registry : Option Registry
  deriving DecidableEq, Repr

/-- The tag of `registryRoot.Registry`: `json:"registry,omitempty"`. -/
def registryRoot.RegistryTag : FieldTag := ⟨"registry", true⟩

/-- The value of `new(registryRoot)`: the pointer field is nil. -/
def registryRoot.new : registryRoot := ⟨none⟩

/-- The contents of a `bytes.Buffer`. -/
structure Buffer where
  buf : List UInt8
  deriving DecidableEq, Repr

/-- The zero `bytes.Buffer` of `var buf bytes.Buffer`. -/
def Buffer.zero : Buffer := ⟨[]⟩

/-- The `Write` of `bytes.Buffer`: appends `p` to the contents. -/
def Buffer.Write (b : Buffer) (p : List UInt8) : Buffer := ⟨b.buf ++ p⟩

/-- The `Bytes` of `bytes.Buffer`: the unread contents. -/
def Buffer.Bytes (b : Buffer) : List UInt8 := b.buf

/-- DockerConfig is the content of a Docker config file. -/
structure DockerConfig where
  DockerConfigJSON : List UInt8
  deriving DecidableEq, Repr

/-- A 1-click catalog entry, as the test file builds it
(`&OneClick{Slug: ..., Type: ...}`); the field `Type` is written `Type_`,
`Type` being reserved. -/
structure OneClick where
  Slug : String
  Type_ : String
  deriving DecidableEq, Repr

/-- Modelled from the spec: the envelope type of `OneClick.List`, which is not
in the embedded sources. The spec gives the wire shape
`{"1_clicks": [{"slug":..., "type":...}, ...]}`; the test file gives the
element type `[]*OneClick`. -/
structure oneClicksRoot where
  List : List (Option OneClick)
  deriving DecidableEq, Repr

/-- The value of `new(oneClicksRoot)`: the slice is nil. -/
def oneClicksRoot.new : oneClicksRoot := ⟨[]⟩

/-! ## The shared client -/

/-- The `body interface{}` argument of `NewRequest`: the nil interface, or a
`*RegistryCreateRequest` (itself possibly a nil pointer). -/
inductive Body where
  | nil : Body
  | create (p : Option RegistryCreateRequest) : Body
  deriving DecidableEq, Repr

/-- The dynamic type of the `v interface{}` argument of `Do`. -/
inductive TargetKind where
  | nil : TargetKind
  | registryRoot : TargetKind
  | buffer : TargetKind
  | oneClicksRoot : TargetKind
  deriving DecidableEq, Repr

/-- The pointee of a target of the given kind. -/
def TargetKind.Val : TargetKind → Type
  | .nil => Unit
  | .registryRoot => godo.registryRoot
  | .buffer => Buffer
  | .oneClicksRoot => godo.oneClicksRoot

/-- The behaviour of the shared transport over its own state `σ` (connection
pool, remote server, clock). `NewRequest` returns `(req, err)`; `Do` returns
the updated pointee of the target with `(resp, err)`. -/
structure Transport (σ : Type) where
  NewRequest : Context → String → String → Body → σ →
    (Option Request × Option Error) × σ
  Do : Context → Option Request → (k : TargetKind) → k.Val → σ →
    (k.Val × Option Response × Option Error) × σ

/-- One call made on the client. -/
inductive Call where
  | NewRequest (ctx : Context) (method : String) (urlStr : String) (body : Body) : Call
  | Do (ctx : Context) (req : Option Request) (k : TargetKind) (v : k.Val) : Call

/-- The state an operation runs in: the transport's state and the trace of
calls made on the client so far. -/
structure World (σ : Type) where
  state : σ
  calls : List Call

/-- The shared client. -/
structure Client (σ : Type) where
  transport : Transport σ

/-- The call `client.NewRequest(ctx, method, urlStr, body)`. -/
def Client.NewRequest {σ : Type} (c : Client σ) (ctx : Context) (method urlStr : String)
    (body : Body) (w : World σ) : (Option Request × Option Error) × World σ :=
  let r := c.transport.NewRequest ctx method urlStr body w.state
  (r.1, ⟨r.2, w.calls ++ [Call.NewRequest ctx method urlStr body]⟩)

/-- The call `client.Do(ctx, req, v)`. -/
def Client.Do {σ : Type} (c : Client σ) (ctx : Context) (req : Option Request)
    (k : TargetKind) (v : k.Val) (w : World σ) :
    (k.Val × Option Response × Option Error) × World σ :=
  let r := c.transport.Do ctx req k v w.state
  (r.1, ⟨r.2, w.calls ++ [Call.Do ctx req k v]⟩)

/-! ## `RegistryServiceOp` -/

/-- RegistryServiceOp handles communication with Registry methods. -/
structure RegistryServiceOp (σ : Type) where
  client : Client σ

/-- Get retrieves the details of a Registry. -/
def RegistryServiceOp.Get {σ : Type} (svc : RegistryServiceOp σ) (ctx : Context)
    (w : World σ) : (Option Registry × Option Response × Option Error) × World σ :=
  match svc.client.NewRequest ctx http.MethodGet registryPath Body.nil w with
  | ((_, some err), w1) => ((none, none, some err), w1)
  | ((req, none), w1) =>
    let root := registryRoot.new
    match svc.client.Do ctx req TargetKind.registryRoot root w1 with
    | ((_, resp, some err), w2) => ((none, resp, some err), w2)
    | ((root, resp, none), w2) => ((root.Registry, resp, none), w2)

/-- Create creates a registry. -/
def RegistryServiceOp.Create {σ : Type} (svc : RegistryServiceOp σ) (ctx : Context)
    (create : Option RegistryCreateRequest) (w : World σ) :
    (Option Registry × Option Response × Option Error) × World σ :=
  match svc.client.NewRequest ctx http.MethodPost registryPath (Body.create create) w with
  | ((_, some err), w1) => ((none, none, some err), w1)
  | ((req, none), w1) =>
    let root := registryRoot.new
    match svc.client.Do ctx req TargetKind.registryRoot root w1 with
    | ((_, resp, some err), w2) => ((none, resp, some err), w2)
    | ((root, resp, none), w2) => ((root.Registry, resp, none), w2)

/-- Delete deletes a registry. -/
def RegistryServiceOp.Delete {σ : Type} (svc : RegistryServiceOp σ) (ctx : Context)
    (w : World σ) : (Option Response × Option Error) × World σ :=
  match svc.client.NewRequest ctx http.MethodDelete registryPath Body.nil w with
  | ((_, some err), w1) => ((none, some err), w1)
  | ((req, none), w1) =>
    match svc.client.Do ctx req TargetKind.nil () w1 with
    | ((_, resp, some err), w2) => ((resp, some err), w2)
    | ((_, resp, none), w2) => ((resp, none), w2)

/-- DockerCredentials retrieves a Docker config file with the registry's
credentials. -/
def RegistryServiceOp.DockerCredentials {σ : Type} (svc : RegistryServiceOp σ)
    (ctx : Context) (w : World σ) :
    (Option DockerConfig × Option Response × Option Error) × World σ :=
  let path := registryPath ++ "/" ++ "docker-credentials"
  match svc.client.NewRequest ctx http.MethodGet path Body.nil w with
  | ((_, some err), w1) => ((none, none, some err), w1)
  | ((req, none), w1) =>
    let buf := Buffer.zero
    match svc.client.Do ctx req TargetKind.buffer buf w1 with
    | ((_, resp, some err), w2) => ((none, resp, some err), w2)
    | ((buf, resp, none), w2) =>
      let dc : DockerConfig := ⟨buf.Bytes⟩
      ((some dc, resp, none), w2)

end godo

namespace godo

/-! ## The 1-click service -/

/-- Modelled from the spec: the collection path of the 1-click endpoints
(`/v2/1-clicks` in the interface table and in the test file). -/
def oneClickBasePath : String := "/v2/1-clicks"

/-- OneClickServiceOp handles communication with the 1-click methods. -/
structure OneClickServiceOp (σ : Type) where
  client : Client σ

/-- Modelled from the spec: `OneClickServiceOp.List`, which is called by the
test file but is not in the embedded sources. Per the spec it issues a GET on
`/v2/1-clicks[?type=...]` (the query only when a type filter is given), has the
transport decode the envelope, and returns the envelope's sequence. -/
def OneClickServiceOp.List {σ : Type} (svc : OneClickServiceOp σ) (ctx : Context)
    (oneClickType : String) (w : World σ) :
    (List (Option OneClick) × Option Response × Option Error) × World σ :=
  let path :=
    if oneClickType = "" then oneClickBasePath
    else oneClickBasePath ++ "?type=" ++ oneClickType
  match svc.client.NewRequest ctx http.MethodGet path Body.nil w with
  | ((_, some err), w1) => (([], none, some err), w1)
  | ((req, none), w1) =>
    let root := oneClicksRoot.new
    match svc.client.Do ctx req TargetKind.oneClicksRoot root w1 with
    | ((_, resp, some err), w2) => (([], resp, some err), w2)
    | ((root, resp, none), w2) => ((root.List, resp, none), w2)

/-! ## JSON encoding and decoding under the struct tags

The struct tags of `registry.go` are instructions to the JSON package of the
standard library, which the transport runs (`NewRequest` encodes the body, `Do`
decodes the response into the target). This section gives the package's rules
for the tagged shapes above, on JSON documents rather than on their text. -/

/-- The case folding of a key, over the ASCII letters. -/
def foldKey (s : String) : String := String.mk (s.data.map Char.toLower)

/-- Whether an object key selects the field with the given tag key: the
decoder accepts the exact key and also a key that differs only in letter
case. -/
def keyMatches (tagKey k : String) : Bool := k == tagKey || foldKey k == foldKey tagKey

/-- The member a string field contributes to the encoded object: the tag's key
with the string; with `omitempty` an empty string contributes nothing. -/
def FieldTag.encodeString (t : FieldTag) (v : String) : List (String × JSON) :=
  if t.omitempty && v == "" then [] else [(t.key, JSON.string v)]

/-- The JSON encoding of a `RegistryCreateRequest` under its field tag. -/
def RegistryCreateRequest.MarshalJSON (r : RegistryCreateRequest) : JSON :=
  JSON.object (RegistryCreateRequest.NameTag.encodeString r.Name)

/-- The JSON encoding of a request body; the nil interface has no encoding,
a nil pointer encodes as `null`. -/
def Body.MarshalJSON : Body → Option JSON
  | Body.nil => none
  | Body.create none => some JSON.null
  | Body.create (some r) => some r.MarshalJSON

/-- Decoding a JSON value into a string field. A JSON string is stored
verbatim, `null` leaves the field, anything else is a decoding error. -/
def decodeString (field : String) (v : JSON) (cur : String) : Except Error String :=
  match v with
  | JSON.string s => Except.ok s
  | JSON.null => Except.ok cur
  | _ => Except.error (Error.Decode field)

/-- Decoding the members of a JSON object into a `Registry`, in order; members
with another key are skipped. -/
def Registry.decodeMembers : List (String × JSON) → Registry → Except Error Registry
  | [], r => Except.ok r
  | (k, v) :: rest, r =>
    if keyMatches Registry.NameTag.key k then
      match decodeString k v r.Name with
      | Except.ok s => Registry.decodeMembers rest ⟨s⟩
      | Except.error e => Except.error e
    else Registry.decodeMembers rest r

/-- Decoding a JSON value into a `*Registry` field: `null` sets the pointer to
nil, an object is decoded into the pointee (allocated when the pointer is
nil). -/
def Registry.decodePtr (v : JSON) (cur : Option Registry) : Except Error (Option Registry) :=
  match v with
  | JSON.null => Except.ok none
  | JSON.object ms =>
    match Registry.decodeMembers ms (cur.getD ⟨""⟩) with
    | Except.ok r => Except.ok (some r)
    | Except.error e => Except.error e
  | _ => Except.error (Error.Decode "registry")

/-- Decoding the members of a JSON object into a `registryRoot`. -/
def registryRoot.decodeMembers : List (String × JSON) → registryRoot → Except Error registryRoot
  | [], r => Except.ok r
  | (k, v) :: rest, r =>
    if keyMatches registryRoot.RegistryTag.key k then
      match Registry.decodePtr v r.Registry with
      | Except.ok p => registryRoot.decodeMembers rest ⟨p⟩
      | Except.error e => Except.error e
    else registryRoot.decodeMembers rest r

/-- Decoding a response body into a `*registryRoot` target. -/
def registryRoot.UnmarshalJSON (v : JSON) (root : registryRoot) : Except Error registryRoot :=
  match v with
  | JSON.object ms => registryRoot.decodeMembers ms root
  | JSON.null => Except.ok root
  | _ => Except.error (Error.Decode "registryRoot")

/-- Modelled from the spec: decoding the members of a JSON object into a
`OneClick` (keys `slug` and `type`). -/
def OneClick.decodeMembers : List (String × JSON) → OneClick → Except Error OneClick
  | [], r => Except.ok r
  | (k, v) :: rest, r =>
    if keyMatches "slug" k then
      match decodeString k v r.Slug with
      | Except.ok s => OneClick.decodeMembers rest { r with Slug := s }
      | Except.error e => Except.error e
    else if keyMatches "type" k then
      match decodeString k v r.Type_ with
      | Except.ok s => OneClick.decodeMembers rest { r with Type_ := s }
      | Except.error e => Except.error e
    else OneClick.decodeMembers rest r

/-- Modelled from the spec: decoding one element of the `1_clicks` array into
a `*OneClick`. -/
def OneClick.decodePtr (v : JSON) : Except Error (Option OneClick) :=
  match v with
  | JSON.null => Except.ok none
  | JSON.object ms =>
    match OneClick.decodeMembers ms ⟨"", ""⟩ with
    | Except.ok r => Except.ok (some r)
    | Except.error e => Except.error e
  | _ => Except.error (Error.Decode "1_clicks")

/-- Modelled from the spec: decoding the elements of a JSON array into a
`[]*OneClick`, one entry per element, in order. -/
def OneClick.decodeSlice : List JSON → Except Error (List (Option OneClick))
  | [] => Except.ok []
  | v :: rest =>
    match OneClick.decodePtr v with
    | Except.ok p =>
      match OneClick.decodeSlice rest with
      | Except.ok ps => Except.ok (p :: ps)
      | Except.error e => Except.error e
    | Except.error e => Except.error e

/-- Modelled from the spec: decoding the members of a JSON object into a
`oneClicksRoot`; the sequence is under the key `1_clicks`. -/
def OneClick.decodeRootMembers :
    List (String × JSON) → oneClicksRoot → Except Error oneClicksRoot
  | [], r => Except.ok r
  | (k, v) :: rest, r =>
    if keyMatches "1_clicks" k then
      match v with
      | JSON.null => OneClick.decodeRootMembers rest ⟨[]⟩
      | JSON.array elems =>
        match OneClick.decodeSlice elems with
        | Except.ok l => OneClick.decodeRootMembers rest ⟨l⟩
        | Except.error e => Except.error e
      | _ => Except.error (Error.Decode "1_clicks")
    else OneClick.decodeRootMembers rest r

/-- Modelled from the spec: decoding a response body into a `*oneClicksRoot`
target. -/
def oneClicksRoot.UnmarshalJSON (v : JSON) (root : oneClicksRoot) :
    Except Error oneClicksRoot :=
  match v with
  | JSON.object ms => OneClick.decodeRootMembers ms root
  | JSON.null => Except.ok root
  | _ => Except.error (Error.Decode "oneClicksRoot")

/-- The JSON object of one catalog entry with the given slug and type. -/
def oneClickJSON (e : String × String) : JSON :=
  JSON.object [("slug", JSON.string e.1), ("type", JSON.string e.2)]

/-- The envelope whose `1_clicks` array holds the given elements, in order;
the elements are arbitrary JSON values. -/
def oneClicksEnvelope (elems : List JSON) : JSON :=
  JSON.object [("1_clicks", JSON.array elems)]

/-- The values of the members of an object that select the field with the
given tag key, in the order of the object. -/
def membersFor (tagKey : String) (ms : List (String × JSON)) : List JSON :=
  (ms.filter (fun m => keyMatches tagKey m.1)).map Prod.snd

/-- A JSON value is a catalog entry with slug `s` and type `t`: an object with
one member for the slug, holding the string `s`, one member for the type,
holding the string `t`, in either order, and any number of other members. -/
def IsOneClickEntry : JSON → String → String → Prop
  | JSON.object ms, s, t =>
    membersFor "slug" ms = [JSON.string s] ∧ membersFor "type" ms = [JSON.string t]
  | _, _, _ => False

/-- The string a field holds after a sequence of values was decoded into it
one after the other: the last string of the sequence, or what it held before
when there is none. -/
def lastString (cur : String) (vs : List JSON) : String :=
  vs.foldl (fun c v => match v with
    | JSON.string s => s
    | _ => c) cur

/-- The envelope `{"registry":{"name":n}}`. -/
def registryEnvelope (n : String) : JSON :=
  JSON.object [("registry", JSON.object [("name", JSON.string n)])]

end godo

namespace godo

/-! ## Reading the call trace -/

/-- The calls made on the client between world `w` and a later world. -/
def callsSince {σ : Type} (w later : World σ) : List Call :=
  later.calls.drop w.calls.length

/-- The context argument of a call. -/
def Call.ctx : Call → Context
  | Call.NewRequest ctx _ _ _ => ctx
  | Call.Do ctx _ _ _ => ctx

def Call.isNewRequest : Call → Bool
  | Call.NewRequest _ _ _ _ => true
  | Call.Do _ _ _ _ => false

def Call.isDo : Call → Bool
  | Call.NewRequest _ _ _ _ => false
  | Call.Do _ _ _ _ => true

/-- The dynamic type of the target of a `Do` call (none for `NewRequest`). -/
def Call.target : Call → Option TargetKind
  | Call.NewRequest _ _ _ _ => none
  | Call.Do _ _ k _ => some k

/-- How many times `NewRequest` is called in a trace. -/
def countNewRequest (cs : List Call) : Nat := cs.countP Call.isNewRequest

/-- How many times `Do` is called in a trace. -/
def countDo (cs : List Call) : Nat := cs.countP Call.isDo

/-- Whether an error is one of the cancellation errors of a context. -/
def Error.isCancellation : Error → Bool
  | Error.Canceled => true
  | Error.DeadlineExceeded => true
  | _ => false

/-! ## A concrete transport

A transport against a server that answers every request with one fixed reply.
It follows the description of the transport in the spec: a response outside
the 2xx range is an error, a writer target receives the raw body, any other
target is JSON-decoded, a nil target receives nothing, and a context that is
already cancelled aborts the call. -/

/-- The error of a context: nil until the context or an ancestor is cancelled. -/
def Context.Err : Context → Option Error
  | Context.Background => none
  | Context.WithCancel parent done => if done then some Error.Canceled else parent.Err

/-- Modelled from the spec: the reply of the remote end: status code, the raw
body bytes, and the JSON document those bytes hold (if they hold one). -/
structure Reply where
  StatusCode : Nat
  raw : List UInt8
  json : Option JSON

/-- Modelled from the spec: the check of the status code; any status outside
200..299 is an error. -/
def CheckResponse (status : Nat) : Option Error :=
  if 200 ≤ status ∧ status ≤ 299 then none else some (Error.ErrorResponse status "")

/-- Modelled from the spec: filling the target of `Do` from a successful
reply. -/
def Reply.fill (reply : Reply) : (k : TargetKind) → k.Val → Except Error k.Val
  | TargetKind.nil, v => Except.ok v
  | TargetKind.buffer, v => Except.ok (Buffer.Write v reply.raw)
  | TargetKind.registryRoot, v =>
    match reply.json with
    | some j => registryRoot.UnmarshalJSON j v
    | none => Except.error (Error.Decode "invalid character")
  | TargetKind.oneClicksRoot, v =>
    match reply.json with
    | some j => oneClicksRoot.UnmarshalJSON j v
    | none => Except.error (Error.Decode "invalid character")

/-- Modelled from the spec: the transport against a server with a fixed reply.
Its state counts the round trips made. -/
def serverTransport (reply : Reply) : Transport Nat where
  NewRequest := fun _ method urlStr body st =>
    ((some ⟨method, "https://api.digitalocean.com" ++ urlStr, body.MarshalJSON⟩, none), st)
  Do := fun ctx _ k v st =>
    match ctx.Err with
    | some e => ((v, none, some e), st)
    | none =>
      match CheckResponse reply.StatusCode with
      | some e => ((v, some ⟨reply.StatusCode⟩, some e), st + 1)
      | none =>
        match reply.fill k v with
        | Except.ok v1 => ((v1, some ⟨reply.StatusCode⟩, none), st + 1)
        | Except.error e => ((v, some ⟨reply.StatusCode⟩, some e), st + 1)

/-- Modelled from the spec: a transport whose `NewRequest` always fails (for
example on an unparsable base URL); `Do` is never reached with a request. -/
def brokenTransport (e : Error) : Transport Unit where
  NewRequest := fun _ _ _ _ st => ((none, some e), st)
  Do := fun _ _ _ v st => ((v, none, some e), st)

/-- A registry service over the fixed-reply transport. -/
def serverRegistry (reply : Reply) : RegistryServiceOp Nat := ⟨⟨serverTransport reply⟩⟩

/-- A registry service over the transport that cannot build requests. -/
def brokenRegistry (e : Error) : RegistryServiceOp Unit := ⟨⟨brokenTransport e⟩⟩

/-- A 1-click service over the fixed-reply transport. -/
def serverOneClick (reply : Reply) : OneClickServiceOp Nat := ⟨⟨serverTransport reply⟩⟩

/-- Three elements of a `1_clicks` array: the entry of the test file, an entry
with its members in the other order and a member that is not a field, and a
third entry. -/
def sampleOneClicks : List JSON :=
  [oneClickJSON ("test-slug", "droplet"),
   JSON.object [("type", JSON.string "kubernetes"), ("description", JSON.null),
     ("slug", JSON.string "monitoring")],
   oneClickJSON ("wordpress", "droplet")]

/-- A fresh world: no round trip made, no call recorded. -/
def World.init : World Nat := ⟨0, []⟩

end godo

namespace godo

/-- The calls of one round trip on the client: one `NewRequest` with the given
method, path and body, followed, only when `NewRequest` returned no error, by
one `Do` on the request `NewRequest` returned, with the given target. `nr` is
what `NewRequest` returned. -/
def expectedCalls {σ : Type} (ctx : Context) (method urlStr : String) (body : Body)
    (nr : (Option Request × Option Error) × σ) (k : TargetKind) (v : k.Val) : List Call :=
  Call.NewRequest ctx method urlStr body ::
    (match nr.1.2 with
     | some _ => []
     | none => [Call.Do ctx nr.1.1 k v])

/-! ## Each operation, case by case -/

section cases
variable {σ : Type}

theorem callsSince_append (w : World σ) (st : σ) (l : List Call) :
    callsSince w ⟨st, w.calls ++ l⟩ = l := by
  simp [callsSince]

theorem dockerCredentialsPath_eq :
    registryPath ++ "/" ++ "docker-credentials" = "/v2/registry/docker-credentials" := by
  decide

theorem Get_NewRequest_err (svc : RegistryServiceOp σ) (ctx : Context) (w : World σ)
    (req : Option Request) (e : Error) (st1 : σ)
    (hN : svc.client.transport.NewRequest ctx "GET" "/v2/registry" Body.nil w.state
      = ((req, some e), st1)) :
    svc.Get ctx w = ((none, none, some e),
      ⟨st1, w.calls ++ [Call.NewRequest ctx "GET" "/v2/registry" Body.nil]⟩) := by
  simp [RegistryServiceOp.Get, Client.NewRequest, http.MethodGet, registryPath, hN]

theorem Get_Do_err (svc : RegistryServiceOp σ) (ctx : Context) (w : World σ)
    (req : Option Request) (st1 : σ) (root : registryRoot) (resp : Option Response)
    (e : Error) (st2 : σ)
    (hN : svc.client.transport.NewRequest ctx "GET" "/v2/registry" Body.nil w.state
      = ((req, none), st1))
    (hD : svc.client.transport.Do ctx req TargetKind.registryRoot registryRoot.new st1
      = ((root, resp, some e), st2)) :
    svc.Get ctx w = ((none, resp, some e),
      ⟨st2, w.calls ++ [Call.NewRequest ctx "GET" "/v2/registry" Body.nil,
        Call.Do ctx req TargetKind.registryRoot registryRoot.new]⟩) := by
  simp [RegistryServiceOp.Get, Client.NewRequest, Client.Do, http.MethodGet, registryPath,
    hN, hD]

theorem Get_Do_ok (svc : RegistryServiceOp σ) (ctx : Context) (w : World σ)
    (req : Option Request) (st1 : σ) (root : registryRoot) (resp : Option Response)
    (st2 : σ)
    (hN : svc.client.transport.NewRequest ctx "GET" "/v2/registry" Body.nil w.state
      = ((req, none), st1))
    (hD : svc.client.transport.Do ctx req TargetKind.registryRoot registryRoot.new st1
      = ((root, resp, none), st2)) :
    svc.Get ctx w = ((root.Registry, resp, none),
      ⟨st2, w.calls ++ [Call.NewRequest ctx "GET" "/v2/registry" Body.nil,
        Call.Do ctx req TargetKind.registryRoot registryRoot.new]⟩) := by
  simp [RegistryServiceOp.Get, Client.NewRequest, Client.Do, http.MethodGet, registryPath,
    hN, hD]

theorem Create_NewRequest_err (svc : RegistryServiceOp σ) (ctx : Context)
    (create : Option RegistryCreateRequest) (w : World σ)
    (req : Option Request) (e : Error) (st1 : σ)
    (hN : svc.client.transport.NewRequest ctx "POST" "/v2/registry" (Body.create create)
      w.state = ((req, some e), st1)) :
    svc.Create ctx create w = ((none, none, some e),
      ⟨st1, w.calls ++ [Call.NewRequest ctx "POST" "/v2/registry" (Body.create create)]⟩) := by
  simp [RegistryServiceOp.Create, Client.NewRequest, http.MethodPost, registryPath, hN]

theorem Create_Do_err (svc : RegistryServiceOp σ) (ctx : Context)
    (create : Option RegistryCreateRequest) (w : World σ)
    (req : Option Request) (st1 : σ) (root : registryRoot) (resp : Option Response)
    (e : Error) (st2 : σ)
    (hN : svc.client.transport.NewRequest ctx "POST" "/v2/registry" (Body.create create)
      w.state = ((req, none), st1))
    (hD : svc.client.transport.Do ctx req TargetKind.registryRoot registryRoot.new st1
      = ((root, resp, some e), st2)) :
    svc.Create ctx create w = ((none, resp, some e),
      ⟨st2, w.calls ++ [Call.NewRequest ctx "POST" "/v2/registry" (Body.create create),
        Call.Do ctx req TargetKind.registryRoot registryRoot.new]⟩) := by
  simp [RegistryServiceOp.Create, Client.NewRequest, Client.Do, http.MethodPost, registryPath,
    hN, hD]

theorem Create_Do_ok (svc : RegistryServiceOp σ) (ctx : Context)
    (create : Option RegistryCreateRequest) (w : World σ)
    (req : Option Request) (st1 : σ) (root : registryRoot) (resp : Option Response)
    (st2 : σ)
    (hN : svc.client.transport.NewRequest ctx "POST" "/v2/registry" (Body.create create)
      w.state = ((req, none), st1))
    (hD : svc.client.transport.Do ctx req TargetKind.registryRoot registryRoot.new st1
      = ((root, resp, none), st2)) :
    svc.Create ctx create w = ((root.Registry, resp, none),
      ⟨st2, w.calls ++ [Call.NewRequest ctx "POST" "/v2/registry" (Body.create create),
        Call.Do ctx req TargetKind.registryRoot registryRoot.new]⟩) := by
  simp [RegistryServiceOp.Create, Client.NewRequest, Client.Do, http.MethodPost, registryPath,
    hN, hD]

theorem Delete_NewRequest_err (svc : RegistryServiceOp σ) (ctx : Context) (w : World σ)
    (req : Option Request) (e : Error) (st1 : σ)
    (hN : svc.client.transport.NewRequest ctx "DELETE" "/v2/registry" Body.nil w.state
      = ((req, some e), st1)) :
    svc.Delete ctx w = ((none, some e),
      ⟨st1, w.calls ++ [Call.NewRequest ctx "DELETE" "/v2/registry" Body.nil]⟩) := by
  simp [RegistryServiceOp.Delete, Client.NewRequest, http.MethodDelete, registryPath, hN]

theorem Delete_Do (svc : RegistryServiceOp σ) (ctx : Context) (w : World σ)
    (req : Option Request) (st1 : σ) (u : Unit) (resp : Option Response)
    (err : Option Error) (st2 : σ)
    (hN : svc.client.transport.NewRequest ctx "DELETE" "/v2/registry" Body.nil w.state
      = ((req, none), st1))
    (hD : svc.client.transport.Do ctx req TargetKind.nil () st1 = ((u, resp, err), st2)) :
    svc.Delete ctx w = ((resp, err),
      ⟨st2, w.calls ++ [Call.NewRequest ctx "DELETE" "/v2/registry" Body.nil,
        Call.Do ctx req TargetKind.nil ()]⟩) := by
  cases err <;>
    simp [RegistryServiceOp.Delete, Client.NewRequest, Client.Do, http.MethodDelete,
      registryPath, hN, hD]

theorem DockerCredentials_NewRequest_err (svc : RegistryServiceOp σ) (ctx : Context)
    (w : World σ) (req : Option Request) (e : Error) (st1 : σ)
    (hN : svc.client.transport.NewRequest ctx "GET" "/v2/registry/docker-credentials"
      Body.nil w.state = ((req, some e), st1)) :
    svc.DockerCredentials ctx w = ((none, none, some e),
      ⟨st1, w.calls ++
        [Call.NewRequest ctx "GET" "/v2/registry/docker-credentials" Body.nil]⟩) := by
  simp [RegistryServiceOp.DockerCredentials, Client.NewRequest, http.MethodGet,
    dockerCredentialsPath_eq, hN]

theorem DockerCredentials_Do_err (svc : RegistryServiceOp σ) (ctx : Context)
    (w : World σ) (req : Option Request) (st1 : σ) (buf : Buffer)
    (resp : Option Response) (e : Error) (st2 : σ)
    (hN : svc.client.transport.NewRequest ctx "GET" "/v2/registry/docker-credentials"
      Body.nil w.state = ((req, none), st1))
    (hD : svc.client.transport.Do ctx req TargetKind.buffer Buffer.zero st1
      = ((buf, resp, some e), st2)) :
    svc.DockerCredentials ctx w = ((none, resp, some e),
      ⟨st2, w.calls ++
        [Call.NewRequest ctx "GET" "/v2/registry/docker-credentials" Body.nil,
          Call.Do ctx req TargetKind.buffer Buffer.zero]⟩) := by
  simp [RegistryServiceOp.DockerCredentials, Client.NewRequest, Client.Do, http.MethodGet,
    dockerCredentialsPath_eq, hN, hD]

theorem DockerCredentials_Do_ok (svc : RegistryServiceOp σ) (ctx : Context)
    (w : World σ) (req : Option Request) (st1 : σ) (buf : Buffer)
    (resp : Option Response) (st2 : σ)
    (hN : svc.client.transport.NewRequest ctx "GET" "/v2/registry/docker-credentials"
      Body.nil w.state = ((req, none), st1))
    (hD : svc.client.transport.Do ctx req TargetKind.buffer Buffer.zero st1
      = ((buf, resp, none), st2)) :
    svc.DockerCredentials ctx w = ((some ⟨buf.Bytes⟩, resp, none),
      ⟨st2, w.calls ++
        [Call.NewRequest ctx "GET" "/v2/registry/docker-credentials" Body.nil,
          Call.Do ctx req TargetKind.buffer Buffer.zero]⟩) := by
  simp [RegistryServiceOp.DockerCredentials, Client.NewRequest, Client.Do, http.MethodGet,
    dockerCredentialsPath_eq, hN, hD]

theorem List_Do_ok (svc : OneClickServiceOp σ) (ctx : Context) (w : World σ)
    (req : Option Request) (st1 : σ) (root : oneClicksRoot) (resp : Option Response)
    (st2 : σ)
    (hN : svc.client.transport.NewRequest ctx "GET" "/v2/1-clicks" Body.nil w.state
      = ((req, none), st1))
    (hD : svc.client.transport.Do ctx req TargetKind.oneClicksRoot oneClicksRoot.new st1
      = ((root, resp, none), st2)) :
    svc.List ctx "" w = ((root.List, resp, none),
      ⟨st2, w.calls ++ [Call.NewRequest ctx "GET" "/v2/1-clicks" Body.nil,
        Call.Do ctx req TargetKind.oneClicksRoot oneClicksRoot.new]⟩) := by
  simp [OneClickServiceOp.List, Client.NewRequest, Client.Do, http.MethodGet,
    oneClickBasePath, hN, hD]

theorem List_NewRequest_err (svc : OneClickServiceOp σ) (ctx : Context) (w : World σ)
    (req : Option Request) (e : Error) (st1 : σ)
    (hN : svc.client.transport.NewRequest ctx "GET" "/v2/1-clicks" Body.nil w.state
      = ((req, some e), st1)) :
    svc.List ctx "" w = (([], none, some e),
      ⟨st1, w.calls ++ [Call.NewRequest ctx "GET" "/v2/1-clicks" Body.nil]⟩) := by
  simp [OneClickServiceOp.List, Client.NewRequest, http.MethodGet, oneClickBasePath, hN]

theorem List_Do_err (svc : OneClickServiceOp σ) (ctx : Context) (w : World σ)
    (req : Option Request) (st1 : σ) (root : oneClicksRoot) (resp : Option Response)
    (e : Error) (st2 : σ)
    (hN : svc.client.transport.NewRequest ctx "GET" "/v2/1-clicks" Body.nil w.state
      = ((req, none), st1))
    (hD : svc.client.transport.Do ctx req TargetKind.oneClicksRoot oneClicksRoot.new st1
      = ((root, resp, some e), st2)) :
    svc.List ctx "" w = (([], resp, some e),
      ⟨st2, w.calls ++ [Call.NewRequest ctx "GET" "/v2/1-clicks" Body.nil,
        Call.Do ctx req TargetKind.oneClicksRoot oneClicksRoot.new]⟩) := by
  simp [OneClickServiceOp.List, Client.NewRequest, Client.Do, http.MethodGet,
    oneClickBasePath, hN, hD]

end cases

/-! ## The trace of each operation -/

section traces
variable {σ : Type}

theorem Get_trace (svc : RegistryServiceOp σ) (ctx : Context) (w : World σ) :
    (svc.Get ctx w).2.calls = w.calls ++
      expectedCalls ctx "GET" "/v2/registry" Body.nil
        (svc.client.transport.NewRequest ctx "GET" "/v2/registry" Body.nil w.state)
        TargetKind.registryRoot registryRoot.new := by
  rcases hN : svc.client.transport.NewRequest ctx "GET" "/v2/registry" Body.nil w.state
    with ⟨⟨req, err⟩, st1⟩
  cases err with
  | some e => rw [Get_NewRequest_err svc ctx w req e st1 hN]; simp [expectedCalls]
  | none =>
    rcases hD : svc.client.transport.Do ctx req TargetKind.registryRoot registryRoot.new st1
      with ⟨⟨root, resp, err2⟩, st2⟩
    cases err2 with
    | some e => rw [Get_Do_err svc ctx w req st1 root resp e st2 hN hD]; simp [expectedCalls]
    | none => rw [Get_Do_ok svc ctx w req st1 root resp st2 hN hD]; simp [expectedCalls]

theorem Create_trace (svc : RegistryServiceOp σ) (ctx : Context)
    (create : Option RegistryCreateRequest) (w : World σ) :
    (svc.Create ctx create w).2.calls = w.calls ++
      expectedCalls ctx "POST" "/v2/registry" (Body.create create)
        (svc.client.transport.NewRequest ctx "POST" "/v2/registry" (Body.create create)
          w.state)
        TargetKind.registryRoot registryRoot.new := by
  rcases hN : svc.client.transport.NewRequest ctx "POST" "/v2/registry" (Body.create create)
    w.state with ⟨⟨req, err⟩, st1⟩
  cases err with
  | some e => rw [Create_NewRequest_err svc ctx create w req e st1 hN]; simp [expectedCalls]
  | none =>
    rcases hD : svc.client.transport.Do ctx req TargetKind.registryRoot registryRoot.new st1
      with ⟨⟨root, resp, err2⟩, st2⟩
    cases err2 with
    | some e =>
      rw [Create_Do_err svc ctx create w req st1 root resp e st2 hN hD]; simp [expectedCalls]
    | none =>
      rw [Create_Do_ok svc ctx create w req st1 root resp st2 hN hD]; simp [expectedCalls]

theorem Delete_trace (svc : RegistryServiceOp σ) (ctx : Context) (w : World σ) :
    (svc.Delete ctx w).2.calls = w.calls ++
      expectedCalls ctx "DELETE" "/v2/registry" Body.nil
        (svc.client.transport.NewRequest ctx "DELETE" "/v2/registry" Body.nil w.state)
        TargetKind.nil () := by
  rcases hN : svc.client.transport.NewRequest ctx "DELETE" "/v2/registry" Body.nil w.state
    with ⟨⟨req, err⟩, st1⟩
  cases err with
  | some e => rw [Delete_NewRequest_err svc ctx w req e st1 hN]; simp [expectedCalls]
  | none =>
    rcases hD : svc.client.transport.Do ctx req TargetKind.nil () st1
      with ⟨⟨u, resp, err2⟩, st2⟩
    rw [Delete_Do svc ctx w req st1 u resp err2 st2 hN hD]; simp [expectedCalls]

theorem DockerCredentials_trace (svc : RegistryServiceOp σ) (ctx : Context) (w : World σ) :
    (svc.DockerCredentials ctx w).2.calls = w.calls ++
      expectedCalls ctx "GET" "/v2/registry/docker-credentials" Body.nil
        (svc.client.transport.NewRequest ctx "GET" "/v2/registry/docker-credentials"
          Body.nil w.state)
        TargetKind.buffer Buffer.zero := by
  rcases hN : svc.client.transport.NewRequest ctx "GET" "/v2/registry/docker-credentials"
    Body.nil w.state with ⟨⟨req, err⟩, st1⟩
  cases err with
  | some e =>
    rw [DockerCredentials_NewRequest_err svc ctx w req e st1 hN]; simp [expectedCalls]
  | none =>
    rcases hD : svc.client.transport.Do ctx req TargetKind.buffer Buffer.zero st1
      with ⟨⟨buf, resp, err2⟩, st2⟩
    cases err2 with
    | some e =>
      rw [DockerCredentials_Do_err svc ctx w req st1 buf resp e st2 hN hD]
      simp [expectedCalls]
    | none =>
      rw [DockerCredentials_Do_ok svc ctx w req st1 buf resp st2 hN hD]
      simp [expectedCalls]

theorem List_trace (svc : OneClickServiceOp σ) (ctx : Context) (w : World σ) :
    (svc.List ctx "" w).2.calls = w.calls ++
      expectedCalls ctx "GET" "/v2/1-clicks" Body.nil
        (svc.client.transport.NewRequest ctx "GET" "/v2/1-clicks" Body.nil w.state)
        TargetKind.oneClicksRoot oneClicksRoot.new := by
  rcases hN : svc.client.transport.NewRequest ctx "GET" "/v2/1-clicks" Body.nil w.state
    with ⟨⟨req, err⟩, st1⟩
  cases err with
  | some e => rw [List_NewRequest_err svc ctx w req e st1 hN]; simp [expectedCalls]
  | none =>
    rcases hD : svc.client.transport.Do ctx req TargetKind.oneClicksRoot oneClicksRoot.new st1
      with ⟨⟨root, resp, err2⟩, st2⟩
    cases err2 with
    | some e => rw [List_Do_err svc ctx w req st1 root resp e st2 hN hD]; simp [expectedCalls]
    | none => rw [List_Do_ok svc ctx w req st1 root resp st2 hN hD]; simp [expectedCalls]

theorem callsSince_of_trace (w later : World σ) (l : List Call)
    (h : later.calls = w.calls ++ l) : callsSince w later = l := by
  simp [callsSince, h]

theorem expectedCalls_ctx (ctx : Context) (method urlStr : String) (body : Body)
    (nr : (Option Request × Option Error) × σ) (k : TargetKind) (v : k.Val) :
    ∀ c ∈ expectedCalls ctx method urlStr body nr k v, c.ctx = ctx := by
  intro c hc
  unfold expectedCalls at hc
  rcases nr with ⟨⟨req, err⟩, st⟩
  cases err <;> simp at hc
  · rcases hc with rfl | rfl <;> rfl
  · subst hc; rfl

theorem expectedCalls_countNewRequest (ctx : Context) (method urlStr : String) (body : Body)
    (nr : (Option Request × Option Error) × σ) (k : TargetKind) (v : k.Val) :
    countNewRequest (expectedCalls ctx method urlStr body nr k v) = 1 := by
  rcases nr with ⟨⟨req, err⟩, st⟩
  cases err <;> simp [expectedCalls, countNewRequest, Call.isNewRequest, List.countP_cons]

theorem expectedCalls_countDo (ctx : Context) (method urlStr : String) (body : Body)
    (nr : (Option Request × Option Error) × σ) (k : TargetKind) (v : k.Val) :
    countDo (expectedCalls ctx method urlStr body nr k v)
      = if nr.1.2 = none then 1 else 0 := by
  rcases nr with ⟨⟨req, err⟩, st⟩
  cases err <;> simp [expectedCalls, countDo, Call.isDo, List.countP_cons]

theorem expectedCalls_target (ctx : Context) (method urlStr : String) (body : Body)
    (nr : (Option Request × Option Error) × σ) (k : TargetKind) (v : k.Val) :
    ∀ c ∈ expectedCalls ctx method urlStr body nr k v, c.isDo = true → c.target = some k := by
  intro c hc
  unfold expectedCalls at hc
  rcases nr with ⟨⟨req, err⟩, st⟩
  cases err <;> simp at hc
  · rcases hc with rfl | rfl <;> simp [Call.isDo, Call.target]
  · subst hc; simp [Call.isDo]

end traces

/-! ## Decoding the envelopes -/

theorem keyMatches_self (k : String) : keyMatches k k = true := by
  simp [keyMatches]

theorem keyMatches_slug_type : keyMatches "slug" "type" = false := by
  decide

theorem registryRoot_UnmarshalJSON_envelope (n : String) :
    registryRoot.UnmarshalJSON (registryEnvelope n) registryRoot.new
      = Except.ok ⟨some ⟨n⟩⟩ := by
  simp [registryRoot.UnmarshalJSON, registryEnvelope, registryRoot.decodeMembers,
    registryRoot.RegistryTag, Registry.decodePtr, Registry.decodeMembers, Registry.NameTag,
    decodeString, keyMatches_self]

theorem keyMatches_type_slug : keyMatches "type" "slug" = false := by
  decide

theorem keyMatches_fold (tagKey k : String) (h : keyMatches tagKey k = true) :
    foldKey k = foldKey tagKey := by
  simp only [keyMatches, Bool.or_eq_true, beq_iff_eq] at h
  rcases h with h | h
  · rw [h]
  · exact h

theorem foldKey_slug_ne_type : foldKey "slug" ≠ foldKey "type" := by
  decide

theorem keyMatches_slug_not_type (k : String) (h : keyMatches "slug" k = true) :
    keyMatches "type" k = false := by
  cases ht : keyMatches "type" k with
  | false => rfl
  | true =>
    exact absurd ((keyMatches_fold _ _ h).symm.trans (keyMatches_fold _ _ ht))
      foldKey_slug_ne_type

theorem membersFor_cons_of_match (tagKey : String) (k : String) (v : JSON)
    (rest : List (String × JSON)) (h : keyMatches tagKey k = true) :
    membersFor tagKey ((k, v) :: rest) = v :: membersFor tagKey rest := by
  simp [membersFor, List.filter_cons, h]

theorem membersFor_cons_of_no_match (tagKey : String) (k : String) (v : JSON)
    (rest : List (String × JSON)) (h : keyMatches tagKey k = false) :
    membersFor tagKey ((k, v) :: rest) = membersFor tagKey rest := by
  simp [membersFor, List.filter_cons, h]

theorem mem_membersFor (tagKey : String) (ms : List (String × JSON)) (m : String × JSON)
    (hm : m ∈ ms) (h : keyMatches tagKey m.1 = true) : m.2 ∈ membersFor tagKey ms := by
  unfold membersFor
  exact List.mem_map.mpr ⟨m, List.mem_filter.mpr ⟨hm, h⟩, rfl⟩

/-- Decoding the members of an object whose slug and type members all hold
strings: each field ends with the last string given for it. -/
theorem OneClick_decodeMembers_strings (ms : List (String × JSON)) :
    ∀ r : OneClick,
      (∀ v ∈ membersFor "slug" ms, ∃ s, v = JSON.string s) →
      (∀ v ∈ membersFor "type" ms, ∃ s, v = JSON.string s) →
      OneClick.decodeMembers ms r
        = Except.ok ⟨lastString r.Slug (membersFor "slug" ms),
            lastString r.Type_ (membersFor "type" ms)⟩ := by
  induction ms with
  | nil => intro r _ _; simp [OneClick.decodeMembers, membersFor, lastString]
  | cons m rest ih =>
    obtain ⟨k, v⟩ := m
    intro r hS hT
    cases hs : keyMatches "slug" k with
    | true =>
      have ht := keyMatches_slug_not_type k hs
      rw [membersFor_cons_of_match _ _ _ _ hs] at hS
      rw [membersFor_cons_of_no_match _ _ _ _ ht] at hT
      obtain ⟨s, rfl⟩ := hS v (List.mem_cons_self _ _)
      have hS1 : ∀ v ∈ membersFor "slug" rest, ∃ s, v = JSON.string s :=
        fun v hv => hS v (List.mem_cons_of_mem _ hv)
      rw [membersFor_cons_of_match _ _ _ _ hs, membersFor_cons_of_no_match _ _ _ _ ht]
      rw [OneClick.decodeMembers, if_pos hs]
      simp only [decodeString]
      rw [ih _ hS1 hT]
      simp [lastString]
    | false =>
      rw [membersFor_cons_of_no_match _ _ _ _ hs] at hS
      rw [membersFor_cons_of_no_match _ _ _ _ hs]
      cases ht : keyMatches "type" k with
      | true =>
        rw [membersFor_cons_of_match _ _ _ _ ht] at hT
        obtain ⟨s, rfl⟩ := hT v (List.mem_cons_self _ _)
        have hT1 : ∀ v ∈ membersFor "type" rest, ∃ s, v = JSON.string s :=
          fun v hv => hT v (List.mem_cons_of_mem _ hv)
        rw [membersFor_cons_of_match _ _ _ _ ht]
        rw [OneClick.decodeMembers, if_neg (by rw [hs]; decide), if_pos ht]
        simp only [decodeString]
        rw [ih _ hS hT1]
        simp [lastString]
      | false =>
        rw [membersFor_cons_of_no_match _ _ _ _ ht] at hT
        rw [membersFor_cons_of_no_match _ _ _ _ ht]
        rw [OneClick.decodeMembers, if_neg (by rw [hs]; decide), if_neg (by rw [ht]; decide)]
        exact ih r hS hT

/-- A catalog entry with slug `s` and type `t` decodes to the entry holding
`s` and `t`. -/
theorem OneClick_decodePtr_entry (e : JSON) (s t : String) (h : IsOneClickEntry e s t) :
    OneClick.decodePtr e = Except.ok (some ⟨s, t⟩) := by
  cases e with
  | object ms =>
    obtain ⟨hS, hT⟩ := h
    have h1 : ∀ v ∈ membersFor "slug" ms, ∃ s, v = JSON.string s := by
      intro v hv; rw [hS] at hv; exact ⟨s, by simpa using hv⟩
    have h2 : ∀ v ∈ membersFor "type" ms, ∃ s, v = JSON.string s := by
      intro v hv; rw [hT] at hv; exact ⟨t, by simpa using hv⟩
    simp only [OneClick.decodePtr]
    rw [OneClick_decodeMembers_strings ms _ h1 h2, hS, hT]
    simp [lastString]
  | null => exact absurd h (by simp [IsOneClickEntry])
  | bool b => exact absurd h (by simp [IsOneClickEntry])
  | number n => exact absurd h (by simp [IsOneClickEntry])
  | string s1 => exact absurd h (by simp [IsOneClickEntry])
  | array xs => exact absurd h (by simp [IsOneClickEntry])

/-- The slice decoder succeeds exactly when every element decodes, and then
yields the decoded elements one for one, in order. -/
theorem OneClick_decodeSlice_iff (elems : List JSON) :
    ∀ ps : List (Option OneClick),
      OneClick.decodeSlice elems = Except.ok ps ↔
        List.Forall₂ (fun e p => OneClick.decodePtr e = Except.ok p) elems ps := by
  induction elems with
  | nil =>
    intro ps
    constructor
    · intro h
      simp only [OneClick.decodeSlice, Except.ok.injEq] at h
      subst h
      exact List.Forall₂.nil
    · intro h
      cases h
      rfl
  | cons e rest ih =>
    intro ps
    constructor
    · intro h
      unfold OneClick.decodeSlice at h
      cases hp : OneClick.decodePtr e with
      | error err => rw [hp] at h; simp at h
      | ok p =>
        rw [hp] at h
        cases hr : OneClick.decodeSlice rest with
        | error err => rw [hr] at h; simp at h
        | ok qs =>
          rw [hr] at h
          simp only [Except.ok.injEq] at h
          subst h
          exact List.Forall₂.cons hp ((ih qs).mp hr)
    · intro h
      cases h with
      | cons hp hrest =>
        unfold OneClick.decodeSlice
        rw [hp, (ih _).mpr hrest]

theorem oneClicksRoot_UnmarshalJSON_envelope (elems : List JSON) (root : oneClicksRoot) :
    oneClicksRoot.UnmarshalJSON (oneClicksEnvelope elems) oneClicksRoot.new = Except.ok root ↔
      OneClick.decodeSlice elems = Except.ok root.List := by
  obtain ⟨l⟩ := root
  cases h : OneClick.decodeSlice elems <;>
    simp [oneClicksRoot.UnmarshalJSON, oneClicksEnvelope, OneClick.decodeRootMembers,
      keyMatches_self, h]

theorem Forall₂_entries_decode (elems : List JSON) (sts : List (String × String))
    (h : List.Forall₂ (fun e st => IsOneClickEntry e st.1 st.2) elems sts) :
    List.Forall₂ (fun e p => OneClick.decodePtr e = Except.ok p) elems
      (sts.map (fun st => some ⟨st.1, st.2⟩)) := by
  induction h with
  | nil => exact List.Forall₂.nil
  | cons hd _ ih => exact List.Forall₂.cons (OneClick_decodePtr_entry _ _ _ hd) ih

theorem Forall₂_ok_unique (elems : List JSON) (ps qs : List (Option OneClick))
    (hp : List.Forall₂ (fun e p => OneClick.decodePtr e = Except.ok p) elems ps)
    (hq : List.Forall₂ (fun e p => OneClick.decodePtr e = Except.ok p) elems qs) :
    ps = qs := by
  have h1 := (OneClick_decodeSlice_iff elems ps).mpr hp
  have h2 := (OneClick_decodeSlice_iff elems qs).mpr hq
  rw [h1] at h2
  exact Except.ok.inj h2

end godo

namespace godo

/-! ## Error results -/

/-- C1: for Get, Create and DockerCredentials, and for every transport: when
`NewRequest` returns an error the operation returns a nil entity, a nil
response and that very error; when `Do` returns an error the operation returns
a nil entity, the response `Do` returned and that very error. Delete returns
the error of `NewRequest` (with a nil response) or of `Do` (with the response
of `Do`) in the same way. -/
theorem registry_errors_returned_unchanged {σ : Type} (svc : RegistryServiceOp σ)
    (ctx : Context) (create : Option RegistryCreateRequest) (w : World σ) :
    (∀ req e st1,
      svc.client.transport.NewRequest ctx "GET" "/v2/registry" Body.nil w.state
        = ((req, some e), st1) →
      (svc.Get ctx w).1 = (none, none, some e)) ∧
    (∀ req st1 root resp e st2,
      svc.client.transport.NewRequest ctx "GET" "/v2/registry" Body.nil w.state
        = ((req, none), st1) →
      svc.client.transport.Do ctx req TargetKind.registryRoot registryRoot.new st1
        = ((root, resp, some e), st2) →
      (svc.Get ctx w).1 = (none, resp, some e)) ∧
    (∀ req e st1,
      svc.client.transport.NewRequest ctx "POST" "/v2/registry" (Body.create create) w.state
        = ((req, some e), st1) →
      (svc.Create ctx create w).1 = (none, none, some e)) ∧
    (∀ req st1 root resp e st2,
      svc.client.transport.NewRequest ctx "POST" "/v2/registry" (Body.create create) w.state
        = ((req, none), st1) →
      svc.client.transport.Do ctx req TargetKind.registryRoot registryRoot.new st1
        = ((root, resp, some e), st2) →
      (svc.Create ctx create w).1 = (none, resp, some e)) ∧
    (∀ req e st1,
      svc.client.transport.NewRequest ctx "GET" "/v2/registry/docker-credentials" Body.nil
        w.state = ((req, some e), st1) →
      (svc.DockerCredentials ctx w).1 = (none, none, some e)) ∧
    (∀ req st1 buf resp e st2,
      svc.client.transport.NewRequest ctx "GET" "/v2/registry/docker-credentials" Body.nil
        w.state = ((req, none), st1) →
      svc.client.transport.Do ctx req TargetKind.buffer Buffer.zero st1
        = ((buf, resp, some e), st2) →
      (svc.DockerCredentials ctx w).1 = (none, resp, some e)) ∧
    (∀ req e st1,
      svc.client.transport.NewRequest ctx "DELETE" "/v2/registry" Body.nil w.state
        = ((req, some e), st1) →
      (svc.Delete ctx w).1 = (none, some e)) ∧
    (∀ req st1 u resp e st2,
      svc.client.transport.NewRequest ctx "DELETE" "/v2/registry" Body.nil w.state
        = ((req, none), st1) →
      svc.client.transport.Do ctx req TargetKind.nil () st1 = ((u, resp, some e), st2) →
      (svc.Delete ctx w).1 = (resp, some e)) := by
  refine ⟨?_, ?_, ?_, ?_, ?_, ?_, ?_, ?_⟩
  · intro req e st1 hN
    rw [Get_NewRequest_err svc ctx w req e st1 hN]
  · intro req st1 root resp e st2 hN hD
    rw [Get_Do_err svc ctx w req st1 root resp e st2 hN hD]
  · intro req e st1 hN
    rw [Create_NewRequest_err svc ctx create w req e st1 hN]
  · intro req st1 root resp e st2 hN hD
    rw [Create_Do_err svc ctx create w req st1 root resp e st2 hN hD]
  · intro req e st1 hN
    rw [DockerCredentials_NewRequest_err svc ctx w req e st1 hN]
  · intro req st1 buf resp e st2 hN hD
    rw [DockerCredentials_Do_err svc ctx w req st1 buf resp e st2 hN hD]
  · intro req e st1 hN
    rw [Delete_NewRequest_err svc ctx w req e st1 hN]
  · intro req st1 u resp e st2 hN hD
    rw [Delete_Do svc ctx w req st1 u resp (some e) st2 hN hD]

/-- Witness of C1: against a server answering 404 every operation returns the
error of `Do` with the 404 response and no entity; over a transport that cannot
build requests every operation returns the error of `NewRequest` alone. -/
theorem registry_errors_returned_unchanged_witness :
    ((brokenRegistry (Error.Other "bad URL")).Get Context.Background ⟨(), []⟩).1
      = (none, none, some (Error.Other "bad URL")) ∧
    ((serverRegistry ⟨404, [], none⟩).Get Context.Background World.init).1
      = (none, some ⟨404⟩, some (Error.ErrorResponse 404 "")) ∧
    ((brokenRegistry (Error.Other "bad URL")).Create Context.Background (some ⟨"r1"⟩)
        ⟨(), []⟩).1
      = (none, none, some (Error.Other "bad URL")) ∧
    ((serverRegistry ⟨404, [], none⟩).Create Context.Background (some ⟨"r1"⟩) World.init).1
      = (none, some ⟨404⟩, some (Error.ErrorResponse 404 "")) ∧
    ((brokenRegistry (Error.Other "bad URL")).DockerCredentials Context.Background
        ⟨(), []⟩).1
      = (none, none, some (Error.Other "bad URL")) ∧
    ((serverRegistry ⟨404, [], none⟩).DockerCredentials Context.Background World.init).1
      = (none, some ⟨404⟩, some (Error.ErrorResponse 404 "")) ∧
    ((brokenRegistry (Error.Other "bad URL")).Delete Context.Background ⟨(), []⟩).1
      = (none, some (Error.Other "bad URL")) ∧
    ((serverRegistry ⟨404, [], none⟩).Delete Context.Background World.init).1
      = (some ⟨404⟩, some (Error.ErrorResponse 404 "")) :=
  ⟨(registry_errors_returned_unchanged (brokenRegistry (Error.Other "bad URL"))
      Context.Background (some ⟨"r1"⟩) ⟨(), []⟩).1 none _ () rfl,
   (registry_errors_returned_unchanged (serverRegistry ⟨404, [], none⟩)
      Context.Background (some ⟨"r1"⟩) World.init).2.1 _ 0 registryRoot.new _ _ 1 rfl rfl,
   (registry_errors_returned_unchanged (brokenRegistry (Error.Other "bad URL"))
      Context.Background (some ⟨"r1"⟩) ⟨(), []⟩).2.2.1 none _ () rfl,
   (registry_errors_returned_unchanged (serverRegistry ⟨404, [], none⟩)
      Context.Background (some ⟨"r1"⟩) World.init).2.2.2.1 _ 0 registryRoot.new _ _ 1 rfl rfl,
   (registry_errors_returned_unchanged (brokenRegistry (Error.Other "bad URL"))
      Context.Background (some ⟨"r1"⟩) ⟨(), []⟩).2.2.2.2.1 none _ () rfl,
   (registry_errors_returned_unchanged (serverRegistry ⟨404, [], none⟩)
      Context.Background (some ⟨"r1"⟩) World.init).2.2.2.2.2.1 _ 0 Buffer.zero _ _ 1 rfl rfl,
   (registry_errors_returned_unchanged (brokenRegistry (Error.Other "bad URL"))
      Context.Background (some ⟨"r1"⟩) ⟨(), []⟩).2.2.2.2.2.2.1 none _ () rfl,
   (registry_errors_returned_unchanged (serverRegistry ⟨404, [], none⟩)
      Context.Background (some ⟨"r1"⟩) World.init).2.2.2.2.2.2.2 _ 0 () _ _ 1 rfl rfl⟩

/-! ## Payloads -/

/-- C2: for every byte sequence `b`, when `Do` succeeds and writes `b` into the
buffer it is given, DockerCredentials returns a DockerConfig whose
DockerConfigJSON is exactly `b` (same bytes, same order, same length), with the
response of `Do` and a nil error. -/
theorem DockerCredentials_returns_written_bytes {σ : Type} (svc : RegistryServiceOp σ)
    (ctx : Context) (w : World σ) (b : List UInt8) (req : Option Request) (st1 : σ)
    (resp : Option Response) (st2 : σ)
    (hN : svc.client.transport.NewRequest ctx "GET" "/v2/registry/docker-credentials"
      Body.nil w.state = ((req, none), st1))
    (hD : svc.client.transport.Do ctx req TargetKind.buffer Buffer.zero st1
      = ((Buffer.Write Buffer.zero b, resp, none), st2)) :
    (svc.DockerCredentials ctx w).1 = (some ⟨b⟩, resp, none) ∧
    ((svc.DockerCredentials ctx w).1.1.map
      (fun dc => dc.DockerConfigJSON.length)) = some b.length := by
  rw [DockerCredentials_Do_ok svc ctx w req st1 _ resp st2 hN hD]
  simp [Buffer.Write, Buffer.zero, Buffer.Bytes]

/-- Witness of C2: a body that is not JSON (bytes 255, 0, 123) comes back as
those three bytes. -/
theorem DockerCredentials_returns_written_bytes_witness :
    ((serverRegistry ⟨200, [255, 0, 123], none⟩).DockerCredentials Context.Background
        World.init).1 = (some ⟨[255, 0, 123]⟩, some ⟨200⟩, none) :=
  (DockerCredentials_returns_written_bytes (serverRegistry ⟨200, [255, 0, 123], none⟩)
    Context.Background World.init [255, 0, 123] _ 0 (some ⟨200⟩) 1 rfl rfl).1

/-- C3: when the transport succeeds and decodes the body
`{"registry":{"name":n}}` into the registryRoot target, Create and Get return a
Registry named `n` with a nil error; in general, when `Do` succeeds, the
Registry returned is the Registry field of the envelope `Do` filled. -/
theorem Create_Get_return_decoded_registry {σ : Type} (svc : RegistryServiceOp σ)
    (ctx : Context) (create : Option RegistryCreateRequest) (w : World σ) :
    (∀ n req st1 root resp st2,
      svc.client.transport.NewRequest ctx "POST" "/v2/registry" (Body.create create) w.state
        = ((req, none), st1) →
      registryRoot.UnmarshalJSON (registryEnvelope n) registryRoot.new = Except.ok root →
      svc.client.transport.Do ctx req TargetKind.registryRoot registryRoot.new st1
        = ((root, resp, none), st2) →
      (svc.Create ctx create w).1 = (some ⟨n⟩, resp, none)) ∧
    (∀ n req st1 root resp st2,
      svc.client.transport.NewRequest ctx "GET" "/v2/registry" Body.nil w.state
        = ((req, none), st1) →
      registryRoot.UnmarshalJSON (registryEnvelope n) registryRoot.new = Except.ok root →
      svc.client.transport.Do ctx req TargetKind.registryRoot registryRoot.new st1
        = ((root, resp, none), st2) →
      (svc.Get ctx w).1 = (some ⟨n⟩, resp, none)) ∧
    (∀ req st1 root resp st2,
      svc.client.transport.NewRequest ctx "POST" "/v2/registry" (Body.create create) w.state
        = ((req, none), st1) →
      svc.client.transport.Do ctx req TargetKind.registryRoot registryRoot.new st1
        = ((root, resp, none), st2) →
      (svc.Create ctx create w).1 = (root.Registry, resp, none)) ∧
    (∀ req st1 root resp st2,
      svc.client.transport.NewRequest ctx "GET" "/v2/registry" Body.nil w.state
        = ((req, none), st1) →
      svc.client.transport.Do ctx req TargetKind.registryRoot registryRoot.new st1
        = ((root, resp, none), st2) →
      (svc.Get ctx w).1 = (root.Registry, resp, none)) := by
  refine ⟨?_, ?_, ?_, ?_⟩
  · intro n req st1 root resp st2 hN hDec hD
    rw [registryRoot_UnmarshalJSON_envelope] at hDec
    cases hDec
    rw [Create_Do_ok svc ctx create w req st1 _ resp st2 hN hD]
  · intro n req st1 root resp st2 hN hDec hD
    rw [registryRoot_UnmarshalJSON_envelope] at hDec
    cases hDec
    rw [Get_Do_ok svc ctx w req st1 _ resp st2 hN hD]
  · intro req st1 root resp st2 hN hD
    rw [Create_Do_ok svc ctx create w req st1 root resp st2 hN hD]
  · intro req st1 root resp st2 hN hD
    rw [Get_Do_ok svc ctx w req st1 root resp st2 hN hD]

/-- Witness of C3: against a server answering `{"registry":{"name":"r1"}}`,
Create and Get return the Registry named r1. -/
theorem Create_Get_return_decoded_registry_witness :
    ((serverRegistry ⟨200, [], some (registryEnvelope "r1")⟩).Create Context.Background
        (some ⟨"r1"⟩) World.init).1 = (some ⟨"r1"⟩, some ⟨200⟩, none) ∧
    ((serverRegistry ⟨200, [], some (registryEnvelope "r1")⟩).Get Context.Background
        World.init).1 = (some ⟨"r1"⟩, some ⟨200⟩, none) ∧
    ((serverRegistry ⟨200, [], some (registryEnvelope "r1")⟩).Create Context.Background
        (some ⟨"r1"⟩) World.init).1
      = ((⟨some ⟨"r1"⟩⟩ : registryRoot).Registry, some ⟨200⟩, none) ∧
    ((serverRegistry ⟨200, [], some (registryEnvelope "r1")⟩).Get Context.Background
        World.init).1
      = ((⟨some ⟨"r1"⟩⟩ : registryRoot).Registry, some ⟨200⟩, none) :=
  ⟨(Create_Get_return_decoded_registry
      (serverRegistry ⟨200, [], some (registryEnvelope "r1")⟩) Context.Background
      (some ⟨"r1"⟩) World.init).1 "r1" _ 0 ⟨some ⟨"r1"⟩⟩ (some ⟨200⟩) 1 rfl rfl rfl,
   (Create_Get_return_decoded_registry
      (serverRegistry ⟨200, [], some (registryEnvelope "r1")⟩) Context.Background
      (some ⟨"r1"⟩) World.init).2.1 "r1" _ 0 ⟨some ⟨"r1"⟩⟩ (some ⟨200⟩) 1 rfl rfl rfl,
   (Create_Get_return_decoded_registry
      (serverRegistry ⟨200, [], some (registryEnvelope "r1")⟩) Context.Background
      (some ⟨"r1"⟩) World.init).2.2.1 _ 0 ⟨some ⟨"r1"⟩⟩ (some ⟨200⟩) 1 rfl rfl,
   (Create_Get_return_decoded_registry
      (serverRegistry ⟨200, [], some (registryEnvelope "r1")⟩) Context.Background
      (some ⟨"r1"⟩) World.init).2.2.2 _ 0 ⟨some ⟨"r1"⟩⟩ (some ⟨200⟩) 1 rfl rfl⟩

/-! ## The request body of Create -/

/-- C4, as stated, fails for the empty name: the `omitempty` tag drops the
`name` key, so the encoding of `RegistryCreateRequest{Name: ""}` is the empty
object and not `{"name": ""}`. -/
theorem Create_body_empty_name_omitted :
    (Body.create (some ⟨""⟩)).MarshalJSON = some (JSON.object []) ∧
    (Body.create (some ⟨""⟩)).MarshalJSON ≠ some (JSON.object [("name", JSON.string "")]) := by
  simp [Body.MarshalJSON, RegistryCreateRequest.MarshalJSON, FieldTag.encodeString,
    RegistryCreateRequest.NameTag]

/-- C4, amended: for every name `n`, Create called with
`RegistryCreateRequest{Name: n}` hands that request unchanged to `NewRequest` as
the body (with POST on /v2/registry, as its first call), and the JSON encoding
of that body under the field tag is the object `{"name": n}` when `n` is not
empty and the empty object when `n` is empty. -/
theorem Create_body_is_tagged_request {σ : Type} (svc : RegistryServiceOp σ) (ctx : Context)
    (n : String) (w : World σ) :
    (callsSince w (svc.Create ctx (some ⟨n⟩) w).2).head?
      = some (Call.NewRequest ctx "POST" "/v2/registry" (Body.create (some ⟨n⟩))) ∧
    (Body.create (some ⟨n⟩)).MarshalJSON
      = some (if n = "" then JSON.object [] else JSON.object [("name", JSON.string n)]) := by
  constructor
  · rw [callsSince_of_trace w _ _ (Create_trace svc ctx (some ⟨n⟩) w)]
    simp [expectedCalls]
  · by_cases h : n = "" <;>
      simp [Body.MarshalJSON, RegistryCreateRequest.MarshalJSON, FieldTag.encodeString,
        RegistryCreateRequest.NameTag, h]

/-! ## Delete -/

/-- C5: every `Do` call Delete makes has a nil target, and when `NewRequest`
and `Do` both succeed Delete returns the response of `Do` with a nil error,
having made exactly those two calls. Its result has no entity component. -/
theorem Delete_decodes_nothing {σ : Type} (svc : RegistryServiceOp σ) (ctx : Context)
    (w : World σ) :
    (∀ c ∈ callsSince w (svc.Delete ctx w).2, c.isDo = true → c.target = some TargetKind.nil) ∧
    (∀ req st1 u resp st2,
      svc.client.transport.NewRequest ctx "DELETE" "/v2/registry" Body.nil w.state
        = ((req, none), st1) →
      svc.client.transport.Do ctx req TargetKind.nil () st1 = ((u, resp, none), st2) →
      (svc.Delete ctx w).1 = (resp, none) ∧
      callsSince w (svc.Delete ctx w).2
        = [Call.NewRequest ctx "DELETE" "/v2/registry" Body.nil,
           Call.Do ctx req TargetKind.nil ()]) := by
  constructor
  · rw [callsSince_of_trace w _ _ (Delete_trace svc ctx w)]
    exact expectedCalls_target _ _ _ _ _ _ _
  · intro req st1 u resp st2 hN hD
    rw [Delete_Do svc ctx w req st1 u resp none st2 hN hD]
    exact ⟨rfl, callsSince_append w st2 _⟩

/-- Witness of C5: against a server answering 204 with an empty body, Delete
returns the 204 response and a nil error. -/
theorem Delete_decodes_nothing_witness :
    ((serverRegistry ⟨204, [], none⟩).Delete Context.Background World.init).1
      = (some ⟨204⟩, none) :=
  ((Delete_decodes_nothing (serverRegistry ⟨204, [], none⟩) Context.Background
    World.init).2 _ 0 () (some ⟨204⟩) 1 rfl rfl).1

/-! ## Requests and round trips -/

/-- C6: the calls each operation makes are one `NewRequest` with the method,
path and body of the interface table (Get: GET /v2/registry, no body; Create:
POST /v2/registry with the create request; Delete: DELETE /v2/registry, no
body; DockerCredentials: GET /v2/registry/docker-credentials, no body),
followed, when it returned no error, by `Do` on the request it returned. -/
theorem registry_requests_follow_table {σ : Type} (svc : RegistryServiceOp σ) (ctx : Context)
    (create : Option RegistryCreateRequest) (w : World σ) :
    callsSince w (svc.Get ctx w).2
      = expectedCalls ctx "GET" "/v2/registry" Body.nil
          (svc.client.transport.NewRequest ctx "GET" "/v2/registry" Body.nil w.state)
          TargetKind.registryRoot registryRoot.new ∧
    callsSince w (svc.Create ctx create w).2
      = expectedCalls ctx "POST" "/v2/registry" (Body.create create)
          (svc.client.transport.NewRequest ctx "POST" "/v2/registry" (Body.create create)
            w.state)
          TargetKind.registryRoot registryRoot.new ∧
    callsSince w (svc.Delete ctx w).2
      = expectedCalls ctx "DELETE" "/v2/registry" Body.nil
          (svc.client.transport.NewRequest ctx "DELETE" "/v2/registry" Body.nil w.state)
          TargetKind.nil () ∧
    callsSince w (svc.DockerCredentials ctx w).2
      = expectedCalls ctx "GET" "/v2/registry/docker-credentials" Body.nil
          (svc.client.transport.NewRequest ctx "GET" "/v2/registry/docker-credentials"
            Body.nil w.state)
          TargetKind.buffer Buffer.zero :=
  ⟨callsSince_of_trace w _ _ (Get_trace svc ctx w),
   callsSince_of_trace w _ _ (Create_trace svc ctx create w),
   callsSince_of_trace w _ _ (Delete_trace svc ctx w),
   callsSince_of_trace w _ _ (DockerCredentials_trace svc ctx w)⟩

/-- C9: every registry operation adds exactly one `NewRequest` call to the
trace, and one `Do` call when `NewRequest` returned no error and none when it
returned an error; so `Do` is never called a second time, whatever it
returned. -/
theorem registry_single_round_trip {σ : Type} (svc : RegistryServiceOp σ) (ctx : Context)
    (create : Option RegistryCreateRequest) (w : World σ) :
    (countNewRequest (svc.Get ctx w).2.calls = countNewRequest w.calls + 1 ∧
      countDo (svc.Get ctx w).2.calls = countDo w.calls +
        (if (svc.client.transport.NewRequest ctx "GET" "/v2/registry" Body.nil
            w.state).1.2 = none then 1 else 0)) ∧
    (countNewRequest (svc.Create ctx create w).2.calls = countNewRequest w.calls + 1 ∧
      countDo (svc.Create ctx create w).2.calls = countDo w.calls +
        (if (svc.client.transport.NewRequest ctx "POST" "/v2/registry" (Body.create create)
            w.state).1.2 = none then 1 else 0)) ∧
    (countNewRequest (svc.Delete ctx w).2.calls = countNewRequest w.calls + 1 ∧
      countDo (svc.Delete ctx w).2.calls = countDo w.calls +
        (if (svc.client.transport.NewRequest ctx "DELETE" "/v2/registry" Body.nil
            w.state).1.2 = none then 1 else 0)) ∧
    (countNewRequest (svc.DockerCredentials ctx w).2.calls = countNewRequest w.calls + 1 ∧
      countDo (svc.DockerCredentials ctx w).2.calls = countDo w.calls +
        (if (svc.client.transport.NewRequest ctx "GET" "/v2/registry/docker-credentials"
            Body.nil w.state).1.2 = none then 1 else 0)) := by
  refine ⟨⟨?_, ?_⟩, ⟨?_, ?_⟩, ⟨?_, ?_⟩, ⟨?_, ?_⟩⟩
  · rw [Get_trace, countNewRequest, List.countP_append, ← countNewRequest, ← countNewRequest,
      expectedCalls_countNewRequest]
  · rw [Get_trace, countDo, List.countP_append, ← countDo, ← countDo, expectedCalls_countDo]
  · rw [Create_trace, countNewRequest, List.countP_append, ← countNewRequest,
      ← countNewRequest, expectedCalls_countNewRequest]
  · rw [Create_trace, countDo, List.countP_append, ← countDo, ← countDo,
      expectedCalls_countDo]
  · rw [Delete_trace, countNewRequest, List.countP_append, ← countNewRequest,
      ← countNewRequest, expectedCalls_countNewRequest]
  · rw [Delete_trace, countDo, List.countP_append, ← countDo, ← countDo,
      expectedCalls_countDo]
  · rw [DockerCredentials_trace, countNewRequest, List.countP_append, ← countNewRequest,
      ← countNewRequest, expectedCalls_countNewRequest]
  · rw [DockerCredentials_trace, countDo, List.countP_append, ← countDo, ← countDo,
      expectedCalls_countDo]

/-! ## OneClick.List -/

/-- C7: List with an empty type filter issues a GET on /v2/1-clicks and, when
the transport succeeds, returns the sequence of the envelope `Do` filled with a
nil error. Decoding an envelope `{"1_clicks": [e_1, ..., e_N]}` of arbitrary
elements succeeds exactly when every element decodes and then gives exactly N
entries, the i-th being the decoding of `e_i`; a null element gives a nil entry
an object whose slug and type members hold strings gives the entry holding the
last string given for each, and so an element that is a catalog entry with slug
`s` and type `t` (members in either order, other members allowed) gives the
entry holding `s` and `t`. So
for every envelope of N catalog entries List returns no error and the N
entries in the order of the envelope, slug and type verbatim. -/
theorem OneClick_List_mirrors_envelope {σ : Type} (svc : OneClickServiceOp σ) (ctx : Context)
    (w : World σ) :
    callsSince w (svc.List ctx "" w).2
      = expectedCalls ctx "GET" "/v2/1-clicks" Body.nil
          (svc.client.transport.NewRequest ctx "GET" "/v2/1-clicks" Body.nil w.state)
          TargetKind.oneClicksRoot oneClicksRoot.new ∧
    (∀ req st1 root resp st2,
      svc.client.transport.NewRequest ctx "GET" "/v2/1-clicks" Body.nil w.state
        = ((req, none), st1) →
      svc.client.transport.Do ctx req TargetKind.oneClicksRoot oneClicksRoot.new st1
        = ((root, resp, none), st2) →
      (svc.List ctx "" w).1 = (root.List, resp, none)) ∧
    (∀ elems root,
      (oneClicksRoot.UnmarshalJSON (oneClicksEnvelope elems) oneClicksRoot.new
          = Except.ok root ↔
        List.Forall₂ (fun e p => OneClick.decodePtr e = Except.ok p) elems root.List) ∧
      (oneClicksRoot.UnmarshalJSON (oneClicksEnvelope elems) oneClicksRoot.new
          = Except.ok root → root.List.length = elems.length)) ∧
    OneClick.decodePtr JSON.null = Except.ok none ∧
    (∀ ms,
      (∀ v ∈ membersFor "slug" ms, ∃ s, v = JSON.string s) →
      (∀ v ∈ membersFor "type" ms, ∃ s, v = JSON.string s) →
      OneClick.decodePtr (JSON.object ms)
        = Except.ok (some ⟨lastString "" (membersFor "slug" ms),
            lastString "" (membersFor "type" ms)⟩)) ∧
    (∀ e s t, IsOneClickEntry e s t → OneClick.decodePtr e = Except.ok (some ⟨s, t⟩)) ∧
    (∀ (elems : List JSON) (sts : List (String × String)),
      List.Forall₂ (fun e st => IsOneClickEntry e st.1 st.2) elems sts →
      oneClicksRoot.UnmarshalJSON (oneClicksEnvelope elems) oneClicksRoot.new
        = Except.ok ⟨sts.map (fun st => some ⟨st.1, st.2⟩)⟩) ∧
    (∀ (elems : List JSON) (sts : List (String × String)) req st1 root resp st2,
      List.Forall₂ (fun e st => IsOneClickEntry e st.1 st.2) elems sts →
      svc.client.transport.NewRequest ctx "GET" "/v2/1-clicks" Body.nil w.state
        = ((req, none), st1) →
      oneClicksRoot.UnmarshalJSON (oneClicksEnvelope elems) oneClicksRoot.new
        = Except.ok root →
      svc.client.transport.Do ctx req TargetKind.oneClicksRoot oneClicksRoot.new st1
        = ((root, resp, none), st2) →
      (svc.List ctx "" w).1 = (sts.map (fun st => some ⟨st.1, st.2⟩), resp, none) ∧
      (svc.List ctx "" w).1.1.length = elems.length) := by
  refine ⟨callsSince_of_trace w _ _ (List_trace svc ctx w), ?_, ?_, rfl, ?_, ?_, ?_, ?_⟩
  · intro req st1 root resp st2 hN hD
    rw [List_Do_ok svc ctx w req st1 root resp st2 hN hD]
  · intro elems root
    have hiff := (oneClicksRoot_UnmarshalJSON_envelope elems root).trans
      (OneClick_decodeSlice_iff elems root.List)
    exact ⟨hiff, fun h => (List.Forall₂.length_eq (hiff.mp h)).symm⟩
  · intro ms hS hT
    simp only [OneClick.decodePtr]
    rw [OneClick_decodeMembers_strings ms _ hS hT]
  · exact OneClick_decodePtr_entry
  · intro elems sts h
    exact (oneClicksRoot_UnmarshalJSON_envelope elems _).mpr
      ((OneClick_decodeSlice_iff elems _).mpr (Forall₂_entries_decode elems sts h))
  · intro elems sts req st1 root resp st2 h hN hDec hD
    have hroot : List.Forall₂ (fun e p => OneClick.decodePtr e = Except.ok p) elems root.List :=
      (OneClick_decodeSlice_iff elems root.List).mp
        ((oneClicksRoot_UnmarshalJSON_envelope elems root).mp hDec)
    have heq : root.List = sts.map (fun st => some ⟨st.1, st.2⟩) :=
      Forall₂_ok_unique elems _ _ hroot (Forall₂_entries_decode elems sts h)
    rw [List_Do_ok svc ctx w req st1 root resp st2 hN hD, heq]
    refine ⟨rfl, ?_⟩
    simp only [List.length_map]
    exact (List.Forall₂.length_eq h).symm

/-- Witness of C7: an envelope of three elements (the entry of the test, an
entry with its members in the other order and an extra member, and another
entry) yields the three entries in that order. -/
theorem OneClick_List_mirrors_envelope_witness :
    ((serverOneClick ⟨200, [], some (oneClicksEnvelope sampleOneClicks)⟩).List
        Context.Background "" World.init).1
      = ([some ⟨"test-slug", "droplet"⟩, some ⟨"monitoring", "kubernetes"⟩,
          some ⟨"wordpress", "droplet"⟩], some ⟨200⟩, none) :=
  ((OneClick_List_mirrors_envelope
    (serverOneClick ⟨200, [], some (oneClicksEnvelope sampleOneClicks)⟩)
    Context.Background World.init).2.2.2.2.2.2.2
    sampleOneClicks
    [("test-slug", "droplet"), ("monitoring", "kubernetes"), ("wordpress", "droplet")]
    _ 0 ⟨[some ⟨"test-slug", "droplet"⟩, some ⟨"monitoring", "kubernetes"⟩,
          some ⟨"wordpress", "droplet"⟩]⟩ (some ⟨200⟩) 1
    (List.Forall₂.cons (And.intro rfl rfl) (List.Forall₂.cons (And.intro rfl rfl)
      (List.Forall₂.cons (And.intro rfl rfl) List.Forall₂.nil)))
    rfl rfl rfl).1

/-! ## Outcomes -/

/-- C8, as stated, fails: against a server answering 200 with the body `{}`,
Get and Create return a nil error together with a nil Registry. -/
theorem Get_Create_nil_registry_without_error :
    (((serverRegistry ⟨200, [123, 125], some (JSON.object [])⟩).Get Context.Background
        World.init).1.2.2 = none ∧
      ((serverRegistry ⟨200, [123, 125], some (JSON.object [])⟩).Get Context.Background
        World.init).1.1 = none) ∧
    (((serverRegistry ⟨200, [123, 125], some (JSON.object [])⟩).Create Context.Background
        (some ⟨"r1"⟩) World.init).1.2.2 = none ∧
      ((serverRegistry ⟨200, [123, 125], some (JSON.object [])⟩).Create Context.Background
        (some ⟨"r1"⟩) World.init).1.1 = none) :=
  ⟨⟨rfl, rfl⟩, ⟨rfl, rfl⟩⟩

/-- C8, amended: for every transport behaviour each of Get, Create and
DockerCredentials has two outcomes: a non-nil error with a nil entity, or a nil
error. With a nil error DockerCredentials returns a non-nil DockerConfig, and
Get and Create return the Registry field of the envelope that `Do` filled (nil
when `Do` left it nil). -/
theorem registry_two_outcomes {σ : Type} (svc : RegistryServiceOp σ) (ctx : Context)
    (create : Option RegistryCreateRequest) (w : World σ) :
    (((svc.Get ctx w).1.2.2 ≠ none ∧ (svc.Get ctx w).1.1 = none) ∨
      ((svc.Get ctx w).1.2.2 = none ∧ ∃ req st1 root resp st2,
        svc.client.transport.NewRequest ctx "GET" "/v2/registry" Body.nil w.state
          = ((req, none), st1) ∧
        svc.client.transport.Do ctx req TargetKind.registryRoot registryRoot.new st1
          = ((root, resp, none), st2) ∧
        (svc.Get ctx w).1.1 = root.Registry)) ∧
    (((svc.Create ctx create w).1.2.2 ≠ none ∧ (svc.Create ctx create w).1.1 = none) ∨
      ((svc.Create ctx create w).1.2.2 = none ∧ ∃ req st1 root resp st2,
        svc.client.transport.NewRequest ctx "POST" "/v2/registry" (Body.create create)
          w.state = ((req, none), st1) ∧
        svc.client.transport.Do ctx req TargetKind.registryRoot registryRoot.new st1
          = ((root, resp, none), st2) ∧
        (svc.Create ctx create w).1.1 = root.Registry)) ∧
    (((svc.DockerCredentials ctx w).1.2.2 ≠ none ∧ (svc.DockerCredentials ctx w).1.1 = none) ∨
      ((svc.DockerCredentials ctx w).1.2.2 = none ∧
        (svc.DockerCredentials ctx w).1.1 ≠ none)) := by
  refine ⟨?_, ?_, ?_⟩
  · rcases hN : svc.client.transport.NewRequest ctx "GET" "/v2/registry" Body.nil w.state
      with ⟨⟨req, err⟩, st1⟩
    cases err with
    | some e => left; rw [Get_NewRequest_err svc ctx w req e st1 hN]; simp
    | none =>
      rcases hD : svc.client.transport.Do ctx req TargetKind.registryRoot registryRoot.new st1
        with ⟨⟨root, resp, err2⟩, st2⟩
      cases err2 with
      | some e => left; rw [Get_Do_err svc ctx w req st1 root resp e st2 hN hD]; simp
      | none =>
        right
        rw [Get_Do_ok svc ctx w req st1 root resp st2 hN hD]
        exact ⟨rfl, req, st1, root, resp, st2, rfl, hD, rfl⟩
  · rcases hN : svc.client.transport.NewRequest ctx "POST" "/v2/registry" (Body.create create)
      w.state with ⟨⟨req, err⟩, st1⟩
    cases err with
    | some e => left; rw [Create_NewRequest_err svc ctx create w req e st1 hN]; simp
    | none =>
      rcases hD : svc.client.transport.Do ctx req TargetKind.registryRoot registryRoot.new st1
        with ⟨⟨root, resp, err2⟩, st2⟩
      cases err2 with
      | some e =>
        left; rw [Create_Do_err svc ctx create w req st1 root resp e st2 hN hD]; simp
      | none =>
        right
        rw [Create_Do_ok svc ctx create w req st1 root resp st2 hN hD]
        exact ⟨rfl, req, st1, root, resp, st2, rfl, hD, rfl⟩
  · rcases hN : svc.client.transport.NewRequest ctx "GET" "/v2/registry/docker-credentials"
      Body.nil w.state with ⟨⟨req, err⟩, st1⟩
    cases err with
    | some e => left; rw [DockerCredentials_NewRequest_err svc ctx w req e st1 hN]; simp
    | none =>
      rcases hD : svc.client.transport.Do ctx req TargetKind.buffer Buffer.zero st1
        with ⟨⟨buf, resp, err2⟩, st2⟩
      cases err2 with
      | some e =>
        left; rw [DockerCredentials_Do_err svc ctx w req st1 buf resp e st2 hN hD]; simp
      | none =>
        right; rw [DockerCredentials_Do_ok svc ctx w req st1 buf resp st2 hN hD]; simp

/-! ## Contexts -/

/-- C10: every call a registry operation makes on the client carries the
context the caller passed in, and when `Do` returns a cancellation error the
operation returns that error as its own. -/
theorem registry_context_passed_through {σ : Type} (svc : RegistryServiceOp σ) (ctx : Context)
    (create : Option RegistryCreateRequest) (w : World σ) :
    ((∀ c ∈ callsSince w (svc.Get ctx w).2, c.ctx = ctx) ∧
      (∀ c ∈ callsSince w (svc.Create ctx create w).2, c.ctx = ctx) ∧
      (∀ c ∈ callsSince w (svc.Delete ctx w).2, c.ctx = ctx) ∧
      (∀ c ∈ callsSince w (svc.DockerCredentials ctx w).2, c.ctx = ctx)) ∧
    (∀ req st1 root resp e st2, e.isCancellation = true →
      svc.client.transport.NewRequest ctx "GET" "/v2/registry" Body.nil w.state
        = ((req, none), st1) →
      svc.client.transport.Do ctx req TargetKind.registryRoot registryRoot.new st1
        = ((root, resp, some e), st2) →
      (svc.Get ctx w).1.2.2 = some e) ∧
    (∀ req st1 root resp e st2, e.isCancellation = true →
      svc.client.transport.NewRequest ctx "POST" "/v2/registry" (Body.create create) w.state
        = ((req, none), st1) →
      svc.client.transport.Do ctx req TargetKind.registryRoot registryRoot.new st1
        = ((root, resp, some e), st2) →
      (svc.Create ctx create w).1.2.2 = some e) ∧
    (∀ req st1 u resp e st2, e.isCancellation = true →
      svc.client.transport.NewRequest ctx "DELETE" "/v2/registry" Body.nil w.state
        = ((req, none), st1) →
      svc.client.transport.Do ctx req TargetKind.nil () st1 = ((u, resp, some e), st2) →
      (svc.Delete ctx w).1.2 = some e) ∧
    (∀ req st1 buf resp e st2, e.isCancellation = true →
      svc.client.transport.NewRequest ctx "GET" "/v2/registry/docker-credentials" Body.nil
        w.state = ((req, none), st1) →
      svc.client.transport.Do ctx req TargetKind.buffer Buffer.zero st1
        = ((buf, resp, some e), st2) →
      (svc.DockerCredentials ctx w).1.2.2 = some e) := by
  refine ⟨⟨?_, ?_, ?_, ?_⟩, ?_, ?_, ?_, ?_⟩
  · rw [callsSince_of_trace w _ _ (Get_trace svc ctx w)]
    exact expectedCalls_ctx _ _ _ _ _ _ _
  · rw [callsSince_of_trace w _ _ (Create_trace svc ctx create w)]
    exact expectedCalls_ctx _ _ _ _ _ _ _
  · rw [callsSince_of_trace w _ _ (Delete_trace svc ctx w)]
    exact expectedCalls_ctx _ _ _ _ _ _ _
  · rw [callsSince_of_trace w _ _ (DockerCredentials_trace svc ctx w)]
    exact expectedCalls_ctx _ _ _ _ _ _ _
  · intro req st1 root resp e st2 _ hN hD
    rw [Get_Do_err svc ctx w req st1 root resp e st2 hN hD]
  · intro req st1 root resp e st2 _ hN hD
    rw [Create_Do_err svc ctx create w req st1 root resp e st2 hN hD]
  · intro req st1 u resp e st2 _ hN hD
    rw [Delete_Do svc ctx w req st1 u resp (some e) st2 hN hD]
  · intro req st1 buf resp e st2 _ hN hD
    rw [DockerCredentials_Do_err svc ctx w req st1 buf resp e st2 hN hD]

/-- Witness of C10: with a context that is already cancelled, the transport's
`Do` reports the cancellation and every operation returns it. -/
theorem registry_context_passed_through_witness :
    ((serverRegistry ⟨200, [], none⟩).Get (Context.WithCancel Context.Background true)
        World.init).1.2.2 = some Error.Canceled ∧
    ((serverRegistry ⟨200, [], none⟩).Create (Context.WithCancel Context.Background true)
        (some ⟨"r1"⟩) World.init).1.2.2 = some Error.Canceled ∧
    ((serverRegistry ⟨200, [], none⟩).Delete (Context.WithCancel Context.Background true)
        World.init).1.2 = some Error.Canceled ∧
    ((serverRegistry ⟨200, [], none⟩).DockerCredentials
        (Context.WithCancel Context.Background true) World.init).1.2.2
      = some Error.Canceled :=
  ⟨(registry_context_passed_through (serverRegistry ⟨200, [], none⟩)
      (Context.WithCancel Context.Background true) (some ⟨"r1"⟩) World.init).2.1
      _ 0 registryRoot.new none Error.Canceled 0 rfl rfl rfl,
   (registry_context_passed_through (serverRegistry ⟨200, [], none⟩)
      (Context.WithCancel Context.Background true) (some ⟨"r1"⟩) World.init).2.2.1
      _ 0 registryRoot.new none Error.Canceled 0 rfl rfl rfl,
   (registry_context_passed_through (serverRegistry ⟨200, [], none⟩)
      (Context.WithCancel Context.Background true) (some ⟨"r1"⟩) World.init).2.2.2.1
      _ 0 () none Error.Canceled 0 rfl rfl rfl,
   (registry_context_passed_through (serverRegistry ⟨200, [], none⟩)
      (Context.WithCancel Context.Background true) (some ⟨"r1"⟩) World.init).2.2.2.2
      _ 0 Buffer.zero none Error.Canceled 0 rfl rfl rfl⟩

end godo
